import Mathlib

/-!
Verification development for the UltraVid web application (src/app.py).

Python strings are modelled as `List Char`.  Each regular-expression
substitution of `sanitize_filename` is translated into an explicit
recursive function, and the request handlers are modelled as pure
functions over an explicit environment recording the outcomes of the
external calls they make (the ffmpeg probe, the yt-dlp extraction
attempts, the temp-directory listing, the two datetime.now()
formattings of /report-issue).
-/

namespace UltraVid

/-- Code points matched by the regex class w of `re.sub` in Python
(letters, digits and the underscore; ASCII fragment of the Unicode
class, which is what every concrete input below uses). -/
def isWordChar (c : Char) : Bool := c.isAlphanum || c == '_'

/-- Code points matched by the regex class s (whitespace). -/
def isSpaceChar (c : Char) : Bool := c.isWhitespace

/-- The characters removed by the second substitution of
sanitize_filename, the class of the nine reserved filename characters. -/
def isBannedChar (c : Char) : Bool :=
  c == '<' || c == '>' || c == ':' || c == '"' || c == '/' || c == '\\' ||
  c == '|' || c == '?' || c == '*'

/-- Characters stripped by strip(of space and underscore) and by the
final rstrip in sanitize_filename. -/
def isStripChar (c : Char) : Bool := c == ' ' || c == '_'

/-- Characters that survive the third substitution of
sanitize_filename (the complement of the negated class: word
characters, whitespace and the hyphen). -/
def isKeptChar (c : Char) : Bool := isWordChar c || isSpaceChar c || c == '-'

/-- Characters that can occur in the final output of
sanitize_filename: word characters, the single space, the hyphen. -/
def goodChar (c : Char) : Bool := isWordChar c || c == ' ' || c == '-'

/-- Models the first substitution of sanitize_filename (line 37 of
src/app.py), which deletes a final dot-plus-nonempty-dotfree-tail when
present; a string without a dot, or ending in a dot, is unchanged. -/
def dropExtension (l : List Char) : List Char :=
  let ext := l.reverse.takeWhile (fun c => c ≠ '.')
  if ext.length = 0 ∨ ext.length = l.length then l
  else (l.reverse.drop (ext.length + 1)).reverse

/-- Models the fourth substitution of sanitize_filename (line 49 of
src/app.py): every maximal run of whitespace becomes a single space.
The boolean argument records whether the previous character belonged
to a whitespace run. -/
def collapseGo : Bool → List Char → List Char
  | _, [] => []
  | inRun, c :: rest =>
    if isSpaceChar c then
      if inRun then collapseGo true rest else ' ' :: collapseGo true rest
    else c :: collapseGo false rest

/-- Whitespace-run collapsing, starting outside a run. -/
def collapseSpaces (l : List Char) : List Char := collapseGo false l

/-- Models the Python rstrip method with the character set p. -/
def rstripChars (p : Char → Bool) (l : List Char) : List Char :=
  (l.reverse.dropWhile p).reverse

/-- Models the Python strip method with the character set p. -/
def stripChars (p : Char → Bool) (l : List Char) : List Char :=
  rstripChars p (l.dropWhile p)

/-- The default name substituted when cleaning empties the string
(line 58 of src/app.py). -/
def defaultName : List Char := "youtube_video".toList

/-- sanitize_filename from src/app.py lines 33-68: drop the extension,
delete the nine reserved characters, replace remaining special
characters by spaces, collapse whitespace runs, strip spaces and
underscores at both ends, substitute a default when empty, truncate to
100 characters, and rstrip spaces and underscores once more. -/
def sanitize_filename (l : List Char) : List Char :=
  let s1 := dropExtension l
  let s2 := s1.filter (fun c => !isBannedChar c)
  let s3 := s2.map (fun c => if isKeptChar c then c else ' ')
  let s4 := collapseSpaces s3
  let s5 := stripChars isStripChar s4
  let s6 := if s5 = [] then defaultName else s5
  let s7 := s6.take 100
  rstripChars isStripChar s7

/-- No two adjacent characters are both spaces. -/
def noSpacePair (a b : Char) : Prop := ¬(a = ' ' ∧ b = ' ')

instance (a b : Char) : Decidable (noSpacePair a b) := by
  unfold noSpacePair; infer_instance

/-- Sanity check of the pipeline on a typical filename. -/
example : sanitize_filename "My:Video/Name???.mp4".toList = "MyVideoName".toList := by decide

example : sanitize_filename "  a   b  ".toList = "a b".toList := by decide

example : sanitize_filename "".toList = "youtube_video".toList := by decide

example : sanitize_filename "___".toList = "youtube_video".toList := by decide

/-! Character-class facts. -/

lemma banned_not_good {c : Char} (h : isBannedChar c = true) : goodChar c = false := by
  simp only [isBannedChar, Bool.or_eq_true, beq_iff_eq] at h
  rcases h with ((((((((h | h) | h) | h) | h) | h) | h) | h) | h) <;> subst h <;> decide

lemma good_not_banned {c : Char} (h : goodChar c = true) : isBannedChar c = false := by
  cases hb : isBannedChar c with
  | false => rfl
  | true => rw [banned_not_good hb] at h; exact absurd h (by simp)

lemma space_not_word {c : Char} (h : isSpaceChar c = true) : isWordChar c = false := by
  simp only [isSpaceChar, Char.isWhitespace, Bool.or_eq_true, decide_eq_true_eq] at h
  rcases h with ((h | h) | h) | h <;> subst h <;> decide

lemma good_space_eq {c : Char} (hg : goodChar c = true) (hs : isSpaceChar c = true) :
    c = ' ' := by
  simp only [goodChar, Bool.or_eq_true, beq_iff_eq] at hg
  rcases hg with (hw | h) | h
  · rw [space_not_word hs] at hw; exact absurd hw (by simp)
  · exact h
  · subst h; exact absurd hs (by decide)

lemma good_kept {c : Char} (h : goodChar c = true) : isKeptChar c = true := by
  simp only [goodChar, Bool.or_eq_true, beq_iff_eq] at h
  simp only [isKeptChar, isSpaceChar, Bool.or_eq_true, beq_iff_eq]
  rcases h with (h | h) | h
  · exact Or.inl (Or.inl h)
  · subst h; exact Or.inl (Or.inr (by decide))
  · exact Or.inr h

lemma good_not_dot {c : Char} (h : goodChar c = true) : c ≠ '.' := by
  intro hc; subst hc; exact absurd h (by decide)

lemma good_space_only {c : Char} (hg : goodChar c = true) : isSpaceChar c = true → c = ' ' :=
  good_space_eq hg

/-! Facts about collapseGo. -/

lemma collapseGo_mem {c : Char} :
    ∀ (l : List Char) (b : Bool), c ∈ collapseGo b l →
      c = ' ' ∨ (c ∈ l ∧ isSpaceChar c = false) := by
  intro l
  induction l with
  | nil => intro b h; simp [collapseGo] at h
  | cons a rest ih =>
    intro b h
    simp only [collapseGo] at h
    split at h
    · split at h
      · rcases ih true h with h' | ⟨hm, hns⟩
        · exact Or.inl h'
        · exact Or.inr ⟨List.mem_cons_of_mem _ hm, hns⟩
      · simp only [List.mem_cons] at h
        rcases h with h | h
        · exact Or.inl h
        · rcases ih true h with h' | ⟨hm, hns⟩
          · exact Or.inl h'
          · exact Or.inr ⟨List.mem_cons_of_mem _ hm, hns⟩
    · next hs =>
      simp only [List.mem_cons] at h
      rcases h with h | h
      · subst h
        exact Or.inr ⟨List.mem_cons_self _ _, by simpa using hs⟩
      · rcases ih false h with h' | ⟨hm, hns⟩
        · exact Or.inl h'
        · exact Or.inr ⟨List.mem_cons_of_mem _ hm, hns⟩

lemma collapseGo_good {l : List Char} (hk : ∀ c ∈ l, isKeptChar c = true) :
    ∀ b, ∀ c ∈ collapseGo b l, goodChar c = true := by
  intro b c hc
  rcases collapseGo_mem l b hc with h | ⟨hm, hns⟩
  · subst h; decide
  · have := hk c hm
    simp only [isKeptChar, Bool.or_eq_true] at this
    rcases this with (h | h) | h
    · simp [goodChar, h]
    · rw [hns] at h; exact absurd h (by simp)
    · simp [goodChar, h]

lemma collapseGo_true_head {l : List Char} {c : Char}
    (h : (collapseGo true l).head? = some c) : isSpaceChar c = false := by
  induction l with
  | nil => simp [collapseGo] at h
  | cons a rest ih =>
    simp only [collapseGo] at h
    split at h
    · split at h
      · exact ih h
      · simp at *
    · next hs =>
      simp only [List.head?_cons, Option.some_inj] at h
      subst h; simpa using hs

lemma collapseGo_chain :
    ∀ (l : List Char) (b : Bool), List.Chain' noSpacePair (collapseGo b l) := by
  intro l
  induction l with
  | nil => intro b; simp [collapseGo]
  | cons a rest ih =>
    intro b
    simp only [collapseGo]
    split
    · split
      · exact ih true
      · rw [List.chain'_cons']
        refine ⟨?_, ih true⟩
        intro y hy
        have := collapseGo_true_head (l := rest) (c := y) (by simpa using hy)
        intro ⟨_, hy'⟩
        rw [hy'] at this
        exact absurd this (by decide)
    · next hs =>
      rw [List.chain'_cons']
      refine ⟨?_, ih false⟩
      intro y _
      intro ⟨ha, _⟩
      rw [ha] at hs
      exact hs (by decide)

lemma collapseGo_eq_self :
    ∀ (l : List Char) (b : Bool),
      (∀ c ∈ l, isSpaceChar c = true → c = ' ') →
      List.Chain' noSpacePair l →
      (b = true → ∀ c, l.head? = some c → isSpaceChar c = false) →
      collapseGo b l = l := by
  intro l
  induction l with
  | nil => intro b _ _ _; simp [collapseGo]
  | cons a rest ih =>
    intro b hsp hch hb
    simp only [collapseGo]
    split
    · next hs =>
      split
      · next hbt =>
        exact absurd hs (by simp [hb hbt a List.head?_cons])
      · have ha : a = ' ' := hsp a (List.mem_cons_self _ _) hs
        subst ha
        congr 1
        refine ih true (fun c hc h => hsp c (List.mem_cons_of_mem _ hc) h)
          (List.chain'_cons'.mp hch).2 ?_
        intro _ c hc
        cases hn : isSpaceChar c with
        | false => rfl
        | true =>
          have hc' : c = ' ' := by
            have : c ∈ rest := List.mem_of_mem_head? hc
            exact hsp c (List.mem_cons_of_mem _ this) hn
          have := (List.chain'_cons'.mp hch).1 c hc
          exact absurd ⟨rfl, hc'⟩ this
    · congr 1
      exact ih false (fun c hc h => hsp c (List.mem_cons_of_mem _ hc) h)
        (List.chain'_cons'.mp hch).2 (by intro h; exact absurd h (by simp))

/-! Facts about dropWhile, rstripChars and stripChars. -/

lemma head?_dropWhile_false {p : Char → Bool} :
    ∀ {l : List Char} {c : Char}, (l.dropWhile p).head? = some c → p c = false := by
  intro l
  induction l with
  | nil => intro c h; simp at h
  | cons a rest ih =>
    intro c h
    rw [List.dropWhile_cons] at h
    split at h
    · exact ih h
    · next ha =>
      simp only [List.head?_cons, Option.some_inj] at h
      subst h
      simpa using ha

lemma dropWhile_ne_nil {p : Char → Bool} :
    ∀ {l : List Char} {c : Char}, c ∈ l → p c = false → l.dropWhile p ≠ [] := by
  intro l
  induction l with
  | nil => intro c hc; simp at hc
  | cons a rest ih =>
    intro c hc hp
    rw [List.dropWhile_cons]
    split
    · next ha =>
      rcases List.mem_cons.mp hc with h | h
      · subst h; rw [hp] at ha; simp at ha
      · exact ih h hp
    · simp

lemma dropWhile_eq_self_of_head {p : Char → Bool} {l : List Char}
    (h : ∀ c, l.head? = some c → p c = false) : l.dropWhile p = l := by
  cases l with
  | nil => rfl
  | cons a rest =>
    have := h a List.head?_cons
    rw [List.dropWhile_cons, if_neg (by simp [this])]

lemma rstripChars_prefix_self (p : Char → Bool) (l : List Char) : rstripChars p l <+: l := by
  obtain ⟨s, hs⟩ := List.dropWhile_suffix (l := l.reverse) p
  refine ⟨s.reverse, ?_⟩
  have h2 := congrArg List.reverse hs
  rw [List.reverse_append, List.reverse_reverse] at h2
  exact h2

lemma head?_of_prefix_ne_nil {l m : List Char} (h : l <+: m) (hne : l ≠ []) :
    m.head? = l.head? := by
  obtain ⟨t, rfl⟩ := h
  cases l with
  | nil => exact absurd rfl hne
  | cons a r => rfl

lemma rstripChars_sub {p : Char → Bool} {l : List Char} :
    ∀ c ∈ rstripChars p l, c ∈ l := fun _ hc =>
  (rstripChars_prefix_self p l).subset hc

lemma rstripChars_length_le (p : Char → Bool) (l : List Char) :
    (rstripChars p l).length ≤ l.length :=
  (rstripChars_prefix_self p l).length_le

lemma getLast?_rstripChars {p : Char → Bool} {l : List Char} {c : Char}
    (h : (rstripChars p l).getLast? = some c) : p c = false := by
  rw [rstripChars, List.getLast?_reverse] at h
  exact head?_dropWhile_false h

lemma rstripChars_ne_nil {p : Char → Bool} {l : List Char} {c : Char}
    (hc : c ∈ l) (hp : p c = false) : rstripChars p l ≠ [] := by
  rw [rstripChars]
  simp only [ne_eq, List.reverse_eq_nil_iff]
  exact dropWhile_ne_nil (by simpa using hc) hp

lemma rstripChars_eq_self {p : Char → Bool} {l : List Char} {c : Char}
    (h : l.getLast? = some c) (hp : p c = false) : rstripChars p l = l := by
  rw [rstripChars]
  rw [dropWhile_eq_self_of_head, List.reverse_reverse]
  intro d hd
  rw [List.head?_reverse, h] at hd
  cases hd
  exact hp

lemma chain'_noSpacePair_reverse {l : List Char} (h : List.Chain' noSpacePair l) :
    List.Chain' noSpacePair l.reverse := by
  rw [List.chain'_reverse]
  exact h.imp (fun a b hab ⟨h1, h2⟩ => hab ⟨h2, h1⟩)

lemma rstripChars_chain {l : List Char} (h : List.Chain' noSpacePair l) :
    List.Chain' noSpacePair (rstripChars isStripChar l) :=
  h.prefix (rstripChars_prefix_self _ _)

/-! Stage views of sanitize_filename and their invariants. -/

/-- Stages one through four of sanitize_filename: extension removal,
reserved-character removal, special-character replacement, whitespace
collapsing. -/
def cleanedStage (l : List Char) : List Char :=
  collapseSpaces (((dropExtension l).filter (fun c => !isBannedChar c)).map
    (fun c => if isKeptChar c then c else ' '))

/-- Stage five: strip spaces and underscores at both ends. -/
def strippedStage (l : List Char) : List Char := stripChars isStripChar (cleanedStage l)

/-- Stage six: the default name when cleaning left nothing. -/
def filledStage (l : List Char) : List Char :=
  if strippedStage l = [] then defaultName else strippedStage l

lemma sanitize_filename_eq (l : List Char) :
    sanitize_filename l = rstripChars isStripChar ((filledStage l).take 100) := rfl

lemma mapped_kept {x : List Char} :
    ∀ c ∈ x.map (fun c => if isKeptChar c then c else ' '), isKeptChar c = true := by
  intro c hc
  rcases List.mem_map.mp hc with ⟨a, _, rfl⟩
  split
  · assumption
  · decide

lemma cleanedStage_good {l : List Char} : ∀ c ∈ cleanedStage l, goodChar c = true :=
  fun c hc => collapseGo_good mapped_kept false c hc

lemma cleanedStage_chain (l : List Char) : List.Chain' noSpacePair (cleanedStage l) :=
  collapseGo_chain _ false

lemma strippedStage_sub {l : List Char} : ∀ c ∈ strippedStage l, c ∈ cleanedStage l :=
  fun c hc =>
    (List.dropWhile_suffix _).subset (rstripChars_sub c hc)

lemma strippedStage_good {l : List Char} : ∀ c ∈ strippedStage l, goodChar c = true :=
  fun c hc => cleanedStage_good c (strippedStage_sub c hc)

lemma strippedStage_chain (l : List Char) : List.Chain' noSpacePair (strippedStage l) :=
  rstripChars_chain ((cleanedStage_chain l).suffix (List.dropWhile_suffix _))

lemma strippedStage_head {l : List Char} {c : Char}
    (h : (strippedStage l).head? = some c) : isStripChar c = false := by
  rw [strippedStage, stripChars] at h
  have hne : rstripChars isStripChar ((cleanedStage l).dropWhile isStripChar) ≠ [] := by
    intro he; rw [he] at h; cases h
  have hpre := rstripChars_prefix_self isStripChar ((cleanedStage l).dropWhile isStripChar)
  have h2 := head?_of_prefix_ne_nil hpre hne
  rw [h] at h2
  exact head?_dropWhile_false h2

lemma strippedStage_last {l : List Char} {c : Char}
    (h : (strippedStage l).getLast? = some c) : isStripChar c = false :=
  getLast?_rstripChars h

lemma filledStage_ne_nil (l : List Char) : filledStage l ≠ [] := by
  rw [filledStage]
  split
  · decide
  · assumption

lemma filledStage_good {l : List Char} : ∀ c ∈ filledStage l, goodChar c = true := by
  rw [filledStage]
  split
  · intro c hc; revert hc; revert c; decide
  · exact strippedStage_good

lemma chain'_defaultName : List.Chain' noSpacePair defaultName := by
  rw [show defaultName =
    'y' :: 'o' :: 'u' :: 't' :: 'u' :: 'b' :: 'e' :: '_' :: 'v' :: 'i' :: 'd' :: 'e' :: 'o' :: []
    from rfl]
  simp only [List.chain'_cons, List.chain'_singleton, noSpacePair, and_true]
  decide

lemma filledStage_chain (l : List Char) : List.Chain' noSpacePair (filledStage l) := by
  rw [filledStage]
  split
  · exact chain'_defaultName
  · exact strippedStage_chain l

lemma filledStage_head {l : List Char} {c : Char}
    (h : (filledStage l).head? = some c) : isStripChar c = false := by
  rw [filledStage] at h
  split at h
  · cases h; decide
  · exact strippedStage_head h

lemma filledStage_last {l : List Char} {c : Char}
    (h : (filledStage l).getLast? = some c) : isStripChar c = false := by
  rw [filledStage] at h
  split at h
  · cases h; decide
  · exact strippedStage_last h

/-! The externally visible invariants of sanitize_filename. -/

lemma sanitize_length_le (l : List Char) : (sanitize_filename l).length ≤ 100 := by
  rw [sanitize_filename_eq]
  calc (rstripChars isStripChar ((filledStage l).take 100)).length
      ≤ ((filledStage l).take 100).length := rstripChars_length_le _ _
    _ ≤ 100 := by simp

lemma sanitize_good {l : List Char} : ∀ c ∈ sanitize_filename l, goodChar c = true := by
  rw [sanitize_filename_eq]
  intro c hc
  have htake := List.take_prefix 100 (filledStage l)
  exact filledStage_good c (htake.subset (rstripChars_sub c hc))

lemma sanitize_chain (l : List Char) : List.Chain' noSpacePair (sanitize_filename l) := by
  rw [sanitize_filename_eq]
  exact rstripChars_chain ((filledStage_chain l).take 100)

lemma sanitize_ne_nil (l : List Char) : sanitize_filename l ≠ [] := by
  rw [sanitize_filename_eq]
  cases hf : filledStage l with
  | nil => exact absurd hf (filledStage_ne_nil l)
  | cons a r =>
    have ha : isStripChar a = false := filledStage_head (by rw [hf]; rfl)
    refine rstripChars_ne_nil (c := a) ?_ ha
    rw [List.take_cons]
    · exact List.mem_cons_self _ _
    · exact Nat.succ_pos 99

lemma sanitize_head {l : List Char} {c : Char}
    (h : (sanitize_filename l).head? = some c) : isStripChar c = false := by
  rw [sanitize_filename_eq] at h
  have hne : rstripChars isStripChar ((filledStage l).take 100) ≠ [] := by
    intro he; rw [he] at h; cases h
  have htake := List.take_prefix 100 (filledStage l)
  have hpre : rstripChars isStripChar ((filledStage l).take 100) <+: filledStage l :=
    (rstripChars_prefix_self _ _).trans htake
  have h2 := head?_of_prefix_ne_nil hpre hne
  rw [h] at h2
  exact filledStage_head h2

lemma sanitize_last {l : List Char} {c : Char}
    (h : (sanitize_filename l).getLast? = some c) : isStripChar c = false := by
  rw [sanitize_filename_eq] at h
  exact getLast?_rstripChars h

/-! Fixed points of sanitize_filename. -/

lemma map_id_of {f : Char → Char} :
    ∀ {l : List Char}, (∀ c ∈ l, f c = c) → l.map f = l := by
  intro l
  induction l with
  | nil => intro _; rfl
  | cons a r ih =>
    intro h
    simp only [List.map_cons]
    rw [h a (List.mem_cons_self _ _), ih (fun c hc => h c (List.mem_cons_of_mem _ hc))]

lemma dropExtension_eq_self {l : List Char} (h : ∀ c ∈ l, c ≠ '.') :
    dropExtension l = l := by
  have ht : l.reverse.takeWhile (fun c => c ≠ '.') = l.reverse :=
    List.takeWhile_eq_self_iff.mpr (fun x hx => by simpa using h x (List.mem_reverse.mp hx))
  simp only [dropExtension]
  rw [ht]
  simp

/-- A string already of the output shape of sanitize_filename is left
unchanged by it. -/
lemma sanitize_fixed {t : List Char}
    (hg : ∀ c ∈ t, goodChar c = true)
    (hch : List.Chain' noSpacePair t)
    (hne : t ≠ [])
    (hhd : ∀ c, t.head? = some c → isStripChar c = false)
    (hlt : ∀ c, t.getLast? = some c → isStripChar c = false)
    (hlen : t.length ≤ 100) :
    sanitize_filename t = t := by
  have h1 : dropExtension t = t :=
    dropExtension_eq_self (fun c hc => good_not_dot (hg c hc))
  have h2 : t.filter (fun c => !isBannedChar c) = t :=
    List.filter_eq_self.mpr (fun a ha => by simp [good_not_banned (hg a ha)])
  have h3 : t.map (fun c => if isKeptChar c then c else ' ') = t :=
    map_id_of (fun c hc => if_pos (good_kept (hg c hc)))
  have h4 : collapseSpaces t = t := by
    rw [collapseSpaces]
    exact collapseGo_eq_self t false (fun c hc hs => good_space_eq (hg c hc) hs) hch
      (by intro hb; exact absurd hb (by simp))
  have h5 : t.dropWhile isStripChar = t := dropWhile_eq_self_of_head hhd
  have h6 : rstripChars isStripChar t = t := by
    obtain ⟨c, hc⟩ : ∃ c, t.getLast? = some c := by
      cases ht : t.getLast? with
      | some c => exact ⟨c, rfl⟩
      | none => exact absurd (List.getLast?_eq_none_iff.mp ht) hne
    exact rstripChars_eq_self hc (hlt c hc)
  have hclean : cleanedStage t = t := by
    rw [cleanedStage, h1, h2, h3]
    exact h4
  have hstr : strippedStage t = t := by
    rw [strippedStage, hclean, stripChars, h5]
    exact h6
  have hfill : filledStage t = t := by
    rw [filledStage, hstr, if_neg hne]
  rw [sanitize_filename_eq, hfill, List.take_of_length_le hlen]
  exact h6

/-- C1: for every input string, sanitize_filename returns a string of at
most 100 characters in which none of the nine reserved characters
occurs, every character is a word character, a space or a hyphen, and no
two adjacent characters are both spaces. -/
theorem C1_sanitize_bounded_charset (l : List Char) :
    (sanitize_filename l).length ≤ 100 ∧
    (∀ c ∈ sanitize_filename l, isBannedChar c = false) ∧
    (∀ c ∈ sanitize_filename l, goodChar c = true) ∧
    List.Chain' noSpacePair (sanitize_filename l) :=
  ⟨sanitize_length_le l,
   fun c hc => good_not_banned (sanitize_good c hc),
   fun c hc => sanitize_good c hc,
   sanitize_chain l⟩

/-- Witness for C1 at a concrete input: the first character of the
sanitized name of a typical title is in the result and is neither
reserved nor outside the allowed classes. -/
theorem C1_sanitize_bounded_charset_witness :
    (sanitize_filename "My:Video/Name???.mp4".toList).length ≤ 100 ∧
    isBannedChar 'M' = false ∧ goodChar 'M' = true :=
  ⟨(C1_sanitize_bounded_charset _).1,
   (C1_sanitize_bounded_charset "My:Video/Name???.mp4".toList).2.1 'M' (by decide),
   (C1_sanitize_bounded_charset "My:Video/Name???.mp4".toList).2.2.1 'M' (by decide)⟩

/-- C8: sanitize_filename never returns the empty string, and the empty
input yields the default name. -/
theorem C8_sanitize_nonempty (l : List Char) :
    0 < (sanitize_filename l).length ∧
    sanitize_filename [] = "youtube_video".toList :=
  ⟨List.length_pos.mpr (sanitize_ne_nil l), by decide⟩

/-- C9: sanitize_filename is idempotent. -/
theorem C9_sanitize_idempotent (l : List Char) :
    sanitize_filename (sanitize_filename l) = sanitize_filename l :=
  sanitize_fixed sanitize_good (sanitize_chain l) (sanitize_ne_nil l)
    (fun _ h => sanitize_head h) (fun _ h => sanitize_last h) (sanitize_length_le l)

/-! Model of the JSON values handled by the Flask endpoints.  Python
floats are modelled by integers only; no claim depends on a non-integer
number. -/

inductive JsonVal where
  | null
  | bool (b : Bool)
  | num (n : Int)
  | str (s : String)
  | arr (elems : List JsonVal)
  | obj (fields : List (String × JsonVal))

/-- Python truthiness on JSON values: None, False, 0, the empty string,
the empty array and the empty object are falsy. -/
def isFalsy : JsonVal → Bool
  | .null => true
  | .bool b => !b
  | .num n => n == 0
  | .str s => s == ""
  | .arr l => l.isEmpty
  | .obj l => l.isEmpty

/-- Truthiness of the result of a dict get: a missing key is falsy. -/
def isFalsyOpt : Option JsonVal → Bool
  | none => true
  | some v => isFalsy v

/-- Does pat occur as a contiguous run inside the second list?  Used to
model Python substring membership. -/
def containsSubAux (pat : List Char) : List Char → Bool
  | [] => pat.isEmpty
  | c :: rest => List.isPrefixOf pat (c :: rest) || containsSubAux pat rest

/-- Python substring membership, the operator in of strings. -/
def containsSub (s pat : String) : Bool := containsSubAux pat.toList s.toList

/-- Python str.strip() with no argument: whitespace removed at both ends. -/
def pyStrip (s : String) : String := String.mk (stripChars isSpaceChar s.toList)

/-- Python or on two strings: the first unless it is empty. -/
def orFalsy (a b : String) : String := if a = "" then b else a

/-- Python str.endswith. -/
def endsWithStr (s suf : String) : Bool := List.isSuffixOf suf.toList s.toList

/-- Python slicing s[:n]. -/
def strTake (s : String) (n : Nat) : String := String.mk (s.toList.take n)

/-- sanitize_filename lifted to the String wrapper used by the handlers. -/
def sanitizeStr (s : String) : String := String.mk (sanitize_filename s.toList)

/-! Model of report_issue (src/app.py lines 535-566).  The two
datetime.now() formattings are inputs.  The body argument is the result
of request.get_json() viewed as the get method of the parsed dict; the
value none models every body on which the handler raises before
validation (a body that is not valid JSON, and a body whose parse is not
a dict, on which data.get raises), both of which the final except clause
turns into a 500 response. -/

structure ReportResult where
  status : Nat
  response : List (String × JsonVal)
  filesWritten : List (String × List (String × JsonVal))

def required_fields : List String := ["type", "url", "description"]

def report_issue (body : Option (String → Option JsonVal)) (idStr isoStr : String) :
    ReportResult :=
  match body with
  | none =>
    { status := 500
      response := [("error", .str "Failed to report issue")]
      filesWritten := [] }
  | some data =>
    match required_fields.find? (fun f => isFalsyOpt (data f)) with
    | some f =>
      { status := 400
        response := [("error", .str ("Missing required field: " ++ f))]
        filesWritten := [] }
    | none =>
      let issue : List (String × JsonVal) :=
        [("id", .str idStr),
         ("timestamp", .str isoStr),
         ("type", (data "type").getD .null),
         ("url", (data "url").getD .null),
         ("description", (data "description").getD .null),
         ("status", .str "new")]
      { status := 200
        response := [("message", .str "Issue reported successfully"), ("id", .str idStr)]
        filesWritten := [("issues/issue_" ++ idStr ++ ".json", issue)] }

/-! Model of check_ffmpeg (lines 111-118) and health_check (lines
502-505).  Both are written as functions of the one relevant piece of
the environment, whether the ffmpeg binary is installed; the body of
health_check does not consult it. -/

def check_ffmpeg (ffmpegInstalled : Bool) : Bool := ffmpegInstalled

def health_check (_ffmpegInstalled : Bool) : List (String × JsonVal) :=
  [("status", .str "ok"), ("message", .str "Video downloader is running")]

/-! Model of get_platform_specific_options (lines 142-294).  The fields
kept are the scalar options and the header dict; the postprocessor
list, the logger and the per-site extractor_args carry opaque library
configuration used by no claim and are omitted. -/

structure YdlOptions where
  format : String
  referer : String
  extract_flat : Bool
  quiet : Bool
  no_warnings : Bool
  nocheckcertificate : Bool
  ignoreerrors : Bool
  extractor_retries : Nat
  socket_timeout : Nat
  retries : Nat
  fragment_retries : Nat
  skip_unavailable_fragments : Bool
  noplaylist : Bool
  merge_output_format : String
  geo_bypass : Bool
  http_headers : List (String × String)

def base_user_agent : String :=
  "Mozilla/5.0 (Windows NT 10.0; Win64; x64) AppleWebKit/537.36 (KHTML, like Gecko) Chrome/120.0.0.0 Safari/537.36"

def base_headers : List (String × String) :=
  [("User-Agent", base_user_agent),
   ("Accept", "text/html,application/xhtml+xml,application/xml;q=0.9,image/webp,*/*;q=0.8"),
   ("Accept-Language", "en-US,en;q=0.5"),
   ("Accept-Encoding", "gzip, deflate")]

/-- The base format selector (also used by the youtube branch). -/
def default_format : String :=
  "bestvideo[height<=2160][ext=mp4][vcodec!*=av01]+bestaudio[ext=m4a]/bestvideo[height<=2160][ext=mp4]+bestaudio[ext=m4a]/best[height<=2160][ext=mp4]/best"

/-- The format selector of the tiktok, instagram and twitter branches. -/
def simple_format : String :=
  "bestvideo[height<=2160][ext=mp4]+bestaudio[ext=m4a]/best[height<=2160][ext=mp4]/best"

def base_options : YdlOptions :=
  { format := default_format
    referer := "https://www.youtube.com/"
    extract_flat := false
    quiet := false
    no_warnings := false
    nocheckcertificate := true
    ignoreerrors := false
    extractor_retries := 5
    socket_timeout := 60
    retries := 10
    fragment_retries := 10
    skip_unavailable_fragments := true
    noplaylist := true
    merge_output_format := "mp4"
    geo_bypass := true
    http_headers := base_headers }

def get_platform_specific_options (url : String) : YdlOptions :=
  if containsSub url "tiktok.com" then
    { base_options with
      format := simple_format
      referer := "https://www.tiktok.com/"
      http_headers := base_headers ++ [("Referer", "https://www.tiktok.com/")] }
  else if containsSub url "youtube.com" || containsSub url "youtu.be" then
    { base_options with
      format := default_format
      referer := "https://www.youtube.com/"
      http_headers := base_headers ++
        [("Referer", "https://www.youtube.com/"), ("Origin", "https://www.youtube.com")] }
  else if containsSub url "instagram.com" then
    { base_options with
      format := simple_format
      referer := "https://www.instagram.com/"
      extract_flat := false
      noplaylist := true
      http_headers := base_headers ++
        [("Referer", "https://www.instagram.com/"), ("Origin", "https://www.instagram.com"),
         ("Sec-Fetch-Site", "same-origin"), ("Sec-Fetch-Mode", "cors"),
         ("Sec-Fetch-Dest", "empty"), ("X-IG-App-ID", "936619743392459"),
         ("X-ASBD-ID", "198387"), ("X-IG-WWW-Claim", "0")] }
  else if containsSub url "twitter.com" || containsSub url "x.com" then
    { base_options with
      format := simple_format
      referer := "https://twitter.com/"
      http_headers := base_headers ++ [("Referer", "https://twitter.com/")] }
  else base_options

/-- Python dict update of a single header key: replace in place when the
key is present, append otherwise. -/
def setHeader (hs : List (String × String)) (k v : String) : List (String × String) :=
  if hs.any (fun p => p.1 == k) then
    hs.map (fun p => if p.1 == k then (k, v) else p)
  else hs ++ [(k, v)]

/-- Python dict update with the whole dict new, key by key. -/
def updateHeaders (old new : List (String × String)) : List (String × String) :=
  new.foldl (fun acc p => setHeader acc p.1 p.2) old

def override_headers : List (String × String) :=
  [("User-Agent", base_user_agent),
   ("Accept", "*/*"),
   ("Accept-Language", "en-US,en;q=0.9"),
   ("Accept-Encoding", "gzip, deflate"),
   ("Connection", "keep-alive"),
   ("Cache-Control", "no-cache"),
   ("Pragma", "no-cache")]

/-- The uniform option overrides applied by download_video after the
platform options are chosen (lines 318-342); outtmpl, which only names
the temp file pattern, is omitted. -/
def apply_download_overrides (o : YdlOptions) : YdlOptions :=
  { o with
    socket_timeout := 120
    retries := 20
    fragment_retries := 20
    extractor_retries := 10
    skip_unavailable_fragments := true
    ignoreerrors := true
    no_warnings := true
    quiet := true
    nocheckcertificate := true
    geo_bypass := true
    http_headers := updateHeaders o.http_headers override_headers }

/-! Model of download_video (src/app.py lines 296-500).

External effects are inputs through DownloadEnv: the ffmpeg probe, the
form field, the temp directory path, the uuid fallback, the outcome of
each yt-dlp extract_info call of the two retry loops (the loops catch
every exception per attempt, remember the message of the last one, and
stop early on a truthy return), and the list of regular files found in
the temp directory after the download.  The ffprobe audio check only
logs and has no observable effect. -/

/-- The parsed yt-dlp info object when a call returns a truthy value:
either a dict with the fields the handler reads, or a truthy non-dict.
A field holds none when the key is missing or its value is falsy for
the purposes of the handler (get with a default and an or-chain). -/
inductive InfoValue where
  | dict (idField : Option String) (description : Option String)
         (caption : Option String) (title : Option String)
  | nondict

/-- Outcome of one extract_info call: a return (none models a falsy
return value, possible with ignoreerrors) or a raised exception with
the given message. -/
inductive AttemptOutcome where
  | returns (info : Option InfoValue)
  | raises (msg : String)

structure DownloadEnv where
  ffmpegInstalled : Bool
  formUrl : Option String
  tempDir : String
  uuidStr : String
  infoAttempts : Nat → AttemptOutcome
  dlAttempts : Nat → AttemptOutcome
  tempFiles : List String

/-- Every return statement of the handler is one of these two shapes. -/
inductive DlResponse where
  | jsonError (status : Nat) (error : String)
  | fileResponse (path : String) (downloadName : String) (mimetype : String)

/-- A cleanup action registered for the temp directory.  The handler
only ever registers a response.call_on_close callback. -/
inductive CleanupReg where
  | callOnClose (dir : String)

structure DlResult where
  response : DlResponse
  tempDirCreated : Bool
  extractorInvoked : Bool
  cleanup : Option CleanupReg

/-- The retry loop of download_video: run up to fuel attempts starting
at index i; stop early on a truthy return, remember the message of the
last exception. -/
def runAttempts (attempts : Nat → AttemptOutcome) :
    Nat → Nat → Option String → Option InfoValue × Option String
  | 0, _, lastErr => (none, lastErr)
  | Nat.succ fuel, i, lastErr =>
    match attempts i with
    | .returns (some info) => (some info, lastErr)
    | .returns none => runAttempts attempts fuel (i + 1) lastErr
    | .raises msg => runAttempts attempts fuel (i + 1) (some msg)

def ffmpeg_error_msg : String :=
  "ffmpeg is required but not installed. Please install ffmpeg manually."

/-- The error classification of the DownloadError handler at lines
483-492: substring matching on the message text, in source order. -/
def classify_download_error (msg : String) : Nat × String :=
  if containsSub msg "Unable to download API page" then
    (400, "API access failed. The video might be region-blocked or private.")
  else if containsSub msg "getaddrinfo failed" then
    (500, "Network connection error. Please check your internet connection.")
  else if containsSub msg "Private video" then
    (400, "This video is private and cannot be downloaded.")
  else if containsSub msg "Video unavailable" then
    (400, "This video is unavailable or has been removed.")
  else
    (500, "Download failed: " ++ msg)

/-- The success return: send_file of the first chosen file with the
sanitized caption as download name, plus the call_on_close cleanup of
the temp directory. -/
def mkFileResult (env : DownloadEnv) (fname caption : String) : DlResult :=
  { response := .fileResponse (env.tempDir ++ "/" ++ fname) (caption ++ ".mp4") "video/mp4"
    tempDirCreated := true
    extractorInvoked := true
    cleanup := some (.callOnClose env.tempDir) }

def jsonResult (status : Nat) (msg : String) (created invoked : Bool) : DlResult :=
  { response := .jsonError status msg
    tempDirCreated := created
    extractorInvoked := invoked
    cleanup := none }

/-- The caption computation of lines 380-389: id with uuid fallback,
the falsy-or chain over description, caption and title, the sanitizer,
and the fallback name when the sanitizer result is empty. -/
def captionOf (env : DownloadEnv) (idField desc capt title : Option String) : String :=
  let video_id := idField.getD (strTake env.uuidStr 8)
  let raw_caption :=
    orFalsy (desc.getD "") (orFalsy (capt.getD "") (title.getD ("video_" ++ video_id)))
  let cap0 := sanitizeStr raw_caption
  if cap0 = "" then "video_" ++ video_id else cap0

/-- The body of download_video after its two guards (lines 308-476):
the extraction retry loop, the caption cleaning, the download retry
loop, the file selection with its instagram fallback, and the
send_file response.  The DownloadError handler of lines 478-496 pairs
with the try at line 345, but every statement under that try which can
raise a DownloadError sits inside the per-attempt try blocks of the two
retry loops, whose bare except clauses swallow it; the classification
above is therefore not reachable from the modelled effects, and the
loops report their generic messages instead. -/
def download_main (env : DownloadEnv) (url : String) : DlResult :=
  match runAttempts env.infoAttempts 3 0 none with
  | (none, lastErr) =>
    jsonResult 400 ("Could not extract video information: " ++ lastErr.getD "Unknown error")
      true true
  | (some .nondict, _) =>
    jsonResult 400 "Invalid video information format" true true
  | (some (.dict idField desc capt title), _) =>
    match runAttempts env.dlAttempts 3 0 none with
    | (none, dlErr) =>
      jsonResult 500 ("Failed to download video: " ++ dlErr.getD "Unknown error") true true
    | (some _, _) =>
      match env.tempFiles.filter
        (fun f => endsWithStr f ".mp4" || endsWithStr f ".m4v" || endsWithStr f ".mov") with
      | [] =>
        if containsSub url "instagram.com" then
          match env.tempFiles with
          | [] =>
            jsonResult 500
              "Video downloaded but file not found. The post might be private or not contain a video."
              true true
          | f :: _ => mkFileResult env f (captionOf env idField desc capt title)
        else
          jsonResult 500 "Video downloaded but file not found" true true
      | f :: _ => mkFileResult env f (captionOf env idField desc capt title)

/-- download_video (lines 296-500): the ffmpeg guard, the url guard,
then the main body. -/
def download_video (env : DownloadEnv) : DlResult :=
  if check_ffmpeg env.ffmpegInstalled = false then
    jsonResult 500 ffmpeg_error_msg false false
  else if pyStrip (env.formUrl.getD "") = "" then
    jsonResult 400 "Please provide a URL" false false
  else
    download_main env (pyStrip (env.formUrl.getD ""))

/-! Claim theorems about the endpoint models. -/

/-- C2: with all three required fields present and truthy, report_issue
writes exactly one JSON file carrying the three request fields plus id,
timestamp and status new, and answers 200 echoing the id; with some
required field missing or falsy it answers 400 naming a missing field
and writes nothing. -/
theorem C2_report_issue_contract (data : String → Option JsonVal) (idStr isoStr : String) :
    ((∀ f ∈ required_fields, isFalsyOpt (data f) = false) →
      report_issue (some data) idStr isoStr =
        { status := 200
          response := [("message", .str "Issue reported successfully"), ("id", .str idStr)]
          filesWritten := [("issues/issue_" ++ idStr ++ ".json",
            [("id", .str idStr),
             ("timestamp", .str isoStr),
             ("type", (data "type").getD .null),
             ("url", (data "url").getD .null),
             ("description", (data "description").getD .null),
             ("status", .str "new")])] }) ∧
    ((∃ f ∈ required_fields, isFalsyOpt (data f) = true) →
      (report_issue (some data) idStr isoStr).status = 400 ∧
      (report_issue (some data) idStr isoStr).filesWritten = [] ∧
      ∃ g ∈ required_fields, isFalsyOpt (data g) = true ∧
        (report_issue (some data) idStr isoStr).response =
          [("error", .str ("Missing required field: " ++ g))]) := by
  constructor
  · intro h
    have hfind : required_fields.find? (fun f => isFalsyOpt (data f)) = none :=
      List.find?_eq_none.mpr (fun x hx => by simp [h x hx])
    simp [report_issue, hfind]
  · intro h
    have hsome : (required_fields.find? (fun f => isFalsyOpt (data f))).isSome :=
      List.find?_isSome.mpr (by simpa using h)
    obtain ⟨g, hg⟩ := Option.isSome_iff_exists.mp hsome
    have hmem := List.mem_of_find?_eq_some hg
    have hfal : isFalsyOpt (data g) = true :=
      List.find?_some (p := fun f => isFalsyOpt (data f)) hg
    refine ⟨by simp [report_issue, hg], by simp [report_issue, hg], g, hmem, hfal, ?_⟩
    simp [report_issue, hg]

/-- A request body with the three required fields present and truthy. -/
def sampleIssueData : String → Option JsonVal := fun k =>
  if k = "type" then some (.str "bug")
  else if k = "url" then some (.str "https://www.tiktok.com/@user/video/1")
  else if k = "description" then some (.str "download fails")
  else none

/-- A request body missing every field. -/
def emptyIssueData : String → Option JsonVal := fun _ => none

/-- Witness for C2 at concrete inputs: a complete body gets a 200 with
one file written, an empty body gets a 400 with nothing written. -/
theorem C2_report_issue_contract_witness :
    (report_issue (some sampleIssueData) "20260101120000" "2026-01-01T12:00:00").status = 200 ∧
    (report_issue (some sampleIssueData) "20260101120000" "2026-01-01T12:00:00").filesWritten.length = 1 ∧
    (report_issue (some emptyIssueData) "20260101120000" "2026-01-01T12:00:00").status = 400 := by
  refine ⟨?_, ?_, ?_⟩
  · rw [(C2_report_issue_contract sampleIssueData "20260101120000" "2026-01-01T12:00:00").1
      (by decide)]
  · rw [(C2_report_issue_contract sampleIssueData "20260101120000" "2026-01-01T12:00:00").1
      (by decide)]
    rfl
  · exact ((C2_report_issue_contract emptyIssueData "20260101120000" "2026-01-01T12:00:00").2
      ⟨"type", by decide, by decide⟩).1

/-- C10: a report-issue request that fails validation, or whose body
cannot be read as a JSON dict at all, writes no file. -/
theorem C10_report_issue_atomic (body : Option (String → Option JsonVal))
    (idStr isoStr : String)
    (h : body = none ∨
      ∃ data, body = some data ∧ ∃ f ∈ required_fields, isFalsyOpt (data f) = true) :
    (report_issue body idStr isoStr).filesWritten = [] := by
  rcases h with h | ⟨data, rfl, hf⟩
  · subst h; rfl
  · have hsome : (required_fields.find? (fun f => isFalsyOpt (data f))).isSome :=
      List.find?_isSome.mpr (by simpa using hf)
    obtain ⟨g, hg⟩ := Option.isSome_iff_exists.mp hsome
    simp [report_issue, hg]

/-- Witness for C10: the empty body and the invalid body both leave the
issues directory untouched. -/
theorem C10_report_issue_atomic_witness :
    (report_issue (some emptyIssueData) "20260101120001" "t").filesWritten = [] ∧
    (report_issue none "20260101120001" "t").filesWritten = [] :=
  ⟨C10_report_issue_atomic (some emptyIssueData) "20260101120001" "t"
      (Or.inr ⟨emptyIssueData, rfl, "type", by decide, by decide⟩),
   C10_report_issue_atomic none "20260101120001" "t" (Or.inl rfl)⟩

/-- C3 counterexample: the health response is one fixed payload whether
or not ffmpeg is installed, so the endpoint reports nothing about tool
availability. -/
theorem C3_health_static_counterexample :
    health_check true = health_check false ∧
    health_check true =
      [("status", .str "ok"), ("message", .str "Video downloader is running")] :=
  ⟨rfl, rfl⟩

/-- C3 amended: GET /health returns a fixed status-ok payload that does
not depend on ffmpeg availability; the ffmpeg probe is check_ffmpeg,
which download_video consults, answering 500 when the tool is missing. -/
theorem C3_health_fixed_payload :
    health_check true = health_check false ∧
    health_check true =
      [("status", .str "ok"), ("message", .str "Video downloader is running")] ∧
    check_ffmpeg true = true ∧ check_ffmpeg false = false ∧
    (∀ env : DownloadEnv, env.ffmpegInstalled = false →
      (download_video env).response = .jsonError 500 ffmpeg_error_msg) := by
  refine ⟨rfl, rfl, rfl, rfl, ?_⟩
  intro env h
  simp [download_video, check_ffmpeg, h, jsonResult]

def envAttemptsFail : Nat → AttemptOutcome := fun _ => .raises "boom"

/-- An environment without ffmpeg and without a url field. -/
def envNoFfmpeg : DownloadEnv :=
  { ffmpegInstalled := false
    formUrl := none
    tempDir := "/tmp/dl0"
    uuidStr := "0123456789ab"
    infoAttempts := envAttemptsFail
    dlAttempts := envAttemptsFail
    tempFiles := [] }

/-- Witness for C3 at a concrete environment. -/
theorem C3_health_fixed_payload_witness :
    (download_video envNoFfmpeg).response = .jsonError 500 ffmpeg_error_msg :=
  C3_health_fixed_payload.2.2.2.2 envNoFfmpeg rfl

/-- An environment in which extraction succeeds and every download
attempt raises a DownloadError about a private video. -/
def envPrivateVideo : DownloadEnv :=
  { ffmpegInstalled := true
    formUrl := some "https://www.youtube.com/watch?v=priv"
    tempDir := "/tmp/dl4"
    uuidStr := "abcdef012345"
    infoAttempts := fun _ => .returns (some (.dict (some "priv") none none (some "Title")))
    dlAttempts := fun _ => .raises "ERROR: Private video"
    tempFiles := [] }

/-- C4: the substring mapping of lines 483-492 assigns 400 to a message
containing Private video, but a DownloadError raised by the download
attempts is swallowed by the bare per-attempt except clause of the
retry loop, so the handler answers 500 with the generic failure message
and the mapping never runs on it. -/
theorem C4_classify_unreachable :
    classify_download_error "ERROR: Private video" =
      (400, "This video is private and cannot be downloaded.") ∧
    (download_video envPrivateVideo).response =
      .jsonError 500 "Failed to download video: ERROR: Private video" :=
  ⟨rfl, rfl⟩

/-- C5 counterexample: a request whose url field is absent is answered
with status 500, not 400, when the ffmpeg probe fails, because the
ffmpeg check runs first. -/
theorem C5_blank_url_counterexample :
    pyStrip (envNoFfmpeg.formUrl.getD "") = "" ∧
    (download_video envNoFfmpeg).response = .jsonError 500 ffmpeg_error_msg :=
  ⟨rfl, rfl⟩

/-- The response shapes the /download handler can produce: a JSON error
carrying status 400 or 500, or a video file response whose download
name ends in .mp4. -/
def respOk : DlResponse → Prop
  | .jsonError s _ => s = 400 ∨ s = 500
  | .fileResponse _ name mt => (∃ stem, name = stem ++ ".mp4") ∧ mt = "video/mp4"

lemma respOk_mkFileResult (env : DownloadEnv) (f cap : String) :
    respOk (mkFileResult env f cap).response := ⟨⟨cap, rfl⟩, rfl⟩

lemma respOk_download_main (env : DownloadEnv) (url : String) :
    respOk (download_main env url).response := by
  unfold download_main
  repeat' split
  all_goals first
    | exact Or.inl rfl
    | exact Or.inr rfl
    | exact respOk_mkFileResult _ _ _

/-- C5 amended: when ffmpeg is available, a blank or missing url field
is answered 400 without invoking the extraction library; when ffmpeg is
missing the handler answers 500 first, also without invoking it; and
every response of the handler is either a JSON error with status 400 or
500 or a video file response whose download name ends in .mp4. -/
theorem C5_download_response_shape (env : DownloadEnv) :
    (env.ffmpegInstalled = true → pyStrip (env.formUrl.getD "") = "" →
      (download_video env).response = .jsonError 400 "Please provide a URL" ∧
      (download_video env).extractorInvoked = false) ∧
    (env.ffmpegInstalled = false →
      (download_video env).response = .jsonError 500 ffmpeg_error_msg ∧
      (download_video env).extractorInvoked = false) ∧
    respOk (download_video env).response := by
  refine ⟨?_, ?_, ?_⟩
  · intro hf hurl
    simp [download_video, check_ffmpeg, hf, hurl, jsonResult]
  · intro hf
    simp [download_video, check_ffmpeg, hf, jsonResult]
  · unfold download_video
    split
    · exact Or.inr rfl
    · split
      · exact Or.inl rfl
      · exact respOk_download_main _ _

/-- An environment with ffmpeg installed and a whitespace-only url. -/
def envBlankUrl : DownloadEnv :=
  { envNoFfmpeg with ffmpegInstalled := true, formUrl := some "   " }

/-- Witness for C5 at a concrete environment. -/
theorem C5_download_response_shape_witness :
    (download_video envBlankUrl).response = .jsonError 400 "Please provide a URL" ∧
    (download_video envBlankUrl).extractorInvoked = false :=
  (C5_download_response_shape envBlankUrl).1 rfl (by decide)

/-! Claims about the per-platform request shaping. -/

def urlTiktok : String := "https://www.tiktok.com/@user/video/123"
def urlYoutube : String := "https://www.youtube.com/watch?v=abc"
def urlInstagram : String := "https://www.instagram.com/p/xyz/"
def urlTwitter : String := "https://twitter.com/u/status/1"
def urlOther : String := "https://example.org/clip"

/-- C6 counterexample: the retry and timeout options are identical, at
the base values, for representative URLs of every platform branch, so
the retry and backoff policy does not differ per source site. -/
theorem C6_uniform_retry_counterexample :
    ((get_platform_specific_options urlTiktok).retries,
     (get_platform_specific_options urlTiktok).fragment_retries,
     (get_platform_specific_options urlTiktok).extractor_retries,
     (get_platform_specific_options urlTiktok).socket_timeout) = (10, 10, 5, 60) ∧
    ((get_platform_specific_options urlYoutube).retries,
     (get_platform_specific_options urlYoutube).fragment_retries,
     (get_platform_specific_options urlYoutube).extractor_retries,
     (get_platform_specific_options urlYoutube).socket_timeout) = (10, 10, 5, 60) ∧
    ((get_platform_specific_options urlInstagram).retries,
     (get_platform_specific_options urlInstagram).fragment_retries,
     (get_platform_specific_options urlInstagram).extractor_retries,
     (get_platform_specific_options urlInstagram).socket_timeout) = (10, 10, 5, 60) ∧
    ((get_platform_specific_options urlTwitter).retries,
     (get_platform_specific_options urlTwitter).fragment_retries,
     (get_platform_specific_options urlTwitter).extractor_retries,
     (get_platform_specific_options urlTwitter).socket_timeout) = (10, 10, 5, 60) ∧
    ((get_platform_specific_options urlOther).retries,
     (get_platform_specific_options urlOther).fragment_retries,
     (get_platform_specific_options urlOther).extractor_retries,
     (get_platform_specific_options urlOther).socket_timeout) = (10, 10, 5, 60) :=
  ⟨rfl, rfl, rfl, rfl, rfl⟩

lemma retry_fields_const (url : String) :
    (get_platform_specific_options url).retries = 10 ∧
    (get_platform_specific_options url).fragment_retries = 10 ∧
    (get_platform_specific_options url).extractor_retries = 5 ∧
    (get_platform_specific_options url).socket_timeout = 60 := by
  unfold get_platform_specific_options
  repeat' split
  all_goals exact ⟨rfl, rfl, rfl, rfl⟩

/-- C6 amended: the format selector, the referer and the header dict
are selected by which platform substring the URL contains, in the
source branch order; the retry and backoff options are the same base
values in every branch, and download_video then overrides them with
one uniform set for all platforms. -/
theorem C6_platform_shaping (url : String) :
    (containsSub url "tiktok.com" = true →
      (get_platform_specific_options url).format = simple_format ∧
      (get_platform_specific_options url).referer = "https://www.tiktok.com/" ∧
      (get_platform_specific_options url).http_headers =
        base_headers ++ [("Referer", "https://www.tiktok.com/")]) ∧
    (containsSub url "tiktok.com" = false →
      (containsSub url "youtube.com" || containsSub url "youtu.be") = true →
      (get_platform_specific_options url).format = default_format ∧
      (get_platform_specific_options url).referer = "https://www.youtube.com/" ∧
      (get_platform_specific_options url).http_headers = base_headers ++
        [("Referer", "https://www.youtube.com/"), ("Origin", "https://www.youtube.com")]) ∧
    (containsSub url "tiktok.com" = false →
      (containsSub url "youtube.com" || containsSub url "youtu.be") = false →
      containsSub url "instagram.com" = true →
      (get_platform_specific_options url).format = simple_format ∧
      (get_platform_specific_options url).referer = "https://www.instagram.com/" ∧
      (get_platform_specific_options url).http_headers = base_headers ++
        [("Referer", "https://www.instagram.com/"), ("Origin", "https://www.instagram.com"),
         ("Sec-Fetch-Site", "same-origin"), ("Sec-Fetch-Mode", "cors"),
         ("Sec-Fetch-Dest", "empty"), ("X-IG-App-ID", "936619743392459"),
         ("X-ASBD-ID", "198387"), ("X-IG-WWW-Claim", "0")]) ∧
    (containsSub url "tiktok.com" = false →
      (containsSub url "youtube.com" || containsSub url "youtu.be") = false →
      containsSub url "instagram.com" = false →
      (containsSub url "twitter.com" || containsSub url "x.com") = true →
      (get_platform_specific_options url).format = simple_format ∧
      (get_platform_specific_options url).referer = "https://twitter.com/" ∧
      (get_platform_specific_options url).http_headers =
        base_headers ++ [("Referer", "https://twitter.com/")]) ∧
    (containsSub url "tiktok.com" = false →
      (containsSub url "youtube.com" || containsSub url "youtu.be") = false →
      containsSub url "instagram.com" = false →
      (containsSub url "twitter.com" || containsSub url "x.com") = false →
      get_platform_specific_options url = base_options) ∧
    ((get_platform_specific_options url).retries = 10 ∧
     (get_platform_specific_options url).fragment_retries = 10 ∧
     (get_platform_specific_options url).extractor_retries = 5 ∧
     (get_platform_specific_options url).socket_timeout = 60) ∧
    ((apply_download_overrides (get_platform_specific_options url)).retries = 20 ∧
     (apply_download_overrides (get_platform_specific_options url)).fragment_retries = 20 ∧
     (apply_download_overrides (get_platform_specific_options url)).extractor_retries = 10 ∧
     (apply_download_overrides (get_platform_specific_options url)).socket_timeout = 120) := by
  refine ⟨?_, ?_, ?_, ?_, ?_, retry_fields_const url, ⟨rfl, rfl, rfl, rfl⟩⟩
  · intro h1
    simp [get_platform_specific_options, h1]
  · intro h1 h2
    simp [get_platform_specific_options, h1, h2]
  · intro h1 h2 h3
    simp [get_platform_specific_options, h1, h2, h3]
  · intro h1 h2 h3 h4
    simp [get_platform_specific_options, h1, h2, h3, h4]
  · intro h1 h2 h3 h4
    simp [get_platform_specific_options, h1, h2, h3, h4]

/-- Witness for C6 at concrete URLs of three branches. -/
theorem C6_platform_shaping_witness :
    (get_platform_specific_options urlTiktok).format = simple_format ∧
    (get_platform_specific_options urlYoutube).referer = "https://www.youtube.com/" ∧
    (get_platform_specific_options urlOther).format = default_format :=
  ⟨((C6_platform_shaping urlTiktok).1 (by decide)).1,
   ((C6_platform_shaping urlYoutube).2.1 (by decide) (by decide)).2.1,
   congrArg YdlOptions.format
     ((C6_platform_shaping urlOther).2.2.2.2.1 (by decide) (by decide) (by decide) (by decide))⟩

/-! Claims about the temp-directory cleanup. -/

/-- An environment whose extraction attempts all fail. -/
def envExtractFail : DownloadEnv :=
  { ffmpegInstalled := true
    formUrl := some "https://www.youtube.com/watch?v=gone"
    tempDir := "/tmp/dl7"
    uuidStr := "fail7777"
    infoAttempts := fun _ => .raises "ERROR: Video unavailable"
    dlAttempts := fun _ => .raises "ERROR: Video unavailable"
    tempFiles := [] }

/-- C7 counterexample: a request that passes both guards but whose
extraction fails creates the temp directory yet registers no deletion
for it at all, neither a timer nor a close callback; the directory is
simply left behind on this request. -/
theorem C7_no_cleanup_counterexample :
    (download_video envExtractFail).tempDirCreated = true ∧
    (download_video envExtractFail).cleanup = none ∧
    (download_video envExtractFail).response =
      .jsonError 400 "Could not extract video information: ERROR: Video unavailable" :=
  ⟨rfl, rfl, rfl⟩

lemma cleanup_download_main (env : DownloadEnv) (url : String) :
    ((∃ p n m, (download_main env url).response = .fileResponse p n m) ↔
      (download_main env url).cleanup = some (.callOnClose env.tempDir)) ∧
    ((download_main env url).cleanup = none ∨
      (download_main env url).cleanup = some (.callOnClose env.tempDir)) := by
  unfold download_main
  repeat' split
  all_goals simp [jsonResult, mkFileResult]

/-- C7 amended: the handler removes the temp directory through a
callback registered on the response close event, and only on the
success path; every error response after the directory is created
registers no cleanup.  No timer is involved. -/
theorem C7_cleanup_on_close (env : DownloadEnv) :
    ((∃ p n m, (download_video env).response = .fileResponse p n m) ↔
      (download_video env).cleanup = some (.callOnClose env.tempDir)) ∧
    ((download_video env).cleanup = none ∨
      (download_video env).cleanup = some (.callOnClose env.tempDir)) := by
  unfold download_video
  split
  · simp [jsonResult]
  · split
    · simp [jsonResult]
    · exact cleanup_download_main env _

/-- An environment in which the whole download succeeds. -/
def envSuccess : DownloadEnv :=
  { ffmpegInstalled := true
    formUrl := some "https://www.youtube.com/watch?v=ok1"
    tempDir := "/tmp/dl9"
    uuidStr := "deadbeef"
    infoAttempts := fun _ => .returns (some (.dict (some "ok1") none none (some "A Title")))
    dlAttempts := fun _ => .returns (some (.dict (some "ok1") none none (some "A Title")))
    tempFiles := ["ok1.mp4"] }

/-- Witness for C7 at a concrete succeeding environment. -/
theorem C7_cleanup_on_close_witness :
    (download_video envSuccess).cleanup = some (.callOnClose "/tmp/dl9") :=
  (C7_cleanup_on_close envSuccess).1.mp
    ⟨"/tmp/dl9/ok1.mp4", "A Title.mp4", "video/mp4", rfl⟩

end UltraVid
